import Mathlib

/-!
Verification of the support-agent repository: the CouchDB read-only MCP tool
gateway (`couchdb_mcp_server.py`) and the multi-provider session orchestrator
(`ctx_cli_couchdb_agent.py`).

The gateway is embedded at the level of the HTTP requests each tool operation
issues: URL paths are lists of bytes (Python `urllib.parse.quote` operates on
the UTF-8 bytes of its argument), query parameters are ordered association
lists (Python dicts preserve insertion order), and the upstream server is an
abstract function from requests to HTTP responses.  The orchestrator is
embedded as a trace semantics: running a session produces the ordered list of
provider open/close events together with the outcome surfaced to the caller.
-/

set_option maxHeartbeats 1000000

namespace CouchdbMcpServer

/-- A byte, as handled by `urllib.parse.quote` after UTF-8 encoding. -/
abbrev Byte := Fin 256

/-- The bytes of an ASCII string literal (used for the fixed path pieces
such as `/_all_dbs`, `/_find`). -/
def lit (s : String) : List Byte :=
  s.toList.map fun c => Fin.ofNat c.toNat

/-- The byte of the path separator character. -/
def SLASH : Byte := 47

/-- Characters never percent-encoded by `urllib.parse.quote`
(its always-safe set: ASCII letters, digits, and the four marks in the
string of underscore, dot, dash, tilde).  `quote` is called with an empty
extra safe set in the source, so this is exactly the preserved set. -/
def alwaysSafe (b : Byte) : Bool :=
  (65 ≤ b.val && b.val ≤ 90) || (97 ≤ b.val && b.val ≤ 122) ||
  (48 ≤ b.val && b.val ≤ 57) ||
  b.val == 95 || b.val == 46 || b.val == 45 || b.val == 126

/-- Upper-case hexadecimal digit byte, as produced for percent escapes. -/
def hexUpper (n : Nat) : Byte :=
  if n < 10 then Fin.ofNat (48 + n) else Fin.ofNat (55 + n)

/-- Percent-encoding of a single byte, following `urllib.parse.quote` with
an empty safe set: safe bytes pass through, all others become a percent
sign followed by two upper-case hex digits. -/
def quoteByte (b : Byte) : List Byte :=
  if alwaysSafe b then [b] else [37, hexUpper (b.val / 16), hexUpper (b.val % 16)]

/-- Embedding of `urllib.parse.quote(s, safe='')` over the UTF-8 bytes of
the argument. -/
def quote (s : List Byte) : List Byte :=
  s.flatMap quoteByte

/-- JSON-compatible values: tool payloads, request bodies, upstream
response bodies. -/
inductive JValue where
  | null
  | bool (b : Bool)
  | num (n : Int)
  | str (s : String)
  | arr (elems : List JValue)
  | obj (fields : List (String × JValue))

/-- Lower-case hexadecimal digit, as produced by Python `json.dumps` for
unicode escapes. -/
def hexLowerChar (n : Nat) : Char :=
  if n < 10 then Char.ofNat (48 + n) else Char.ofNat (87 + n)

/-- A six-character JSON unicode escape for one UTF-16 code unit. -/
def uEscape (n : Nat) : List Char :=
  ['\\', 'u', hexLowerChar (n / 4096 % 16), hexLowerChar (n / 256 % 16),
   hexLowerChar (n / 16 % 16), hexLowerChar (n % 16)]

/-- Escaping of one character of a JSON string, following Python
`json.dumps` with its default ASCII-only output: quote and backslash get
two-character escapes, the five named control characters get their short
escapes, every other character outside the printable ASCII range is
unicode-escaped (with a surrogate pair beyond the basic plane). -/
def jsonEscapeChar (c : Char) : List Char :=
  if c = '"' then ['\\', '"']
  else if c = '\\' then ['\\', '\\']
  else if c = '\x08' then ['\\', 'b']
  else if c = '\x0c' then ['\\', 'f']
  else if c = '\n' then ['\\', 'n']
  else if c = '\r' then ['\\', 'r']
  else if c = '\t' then ['\\', 't']
  else if c.toNat < 32 ∨ 127 ≤ c.toNat then
    if c.toNat < 65536 then uEscape c.toNat
    else uEscape (55296 + (c.toNat - 65536) / 1024) ++
         uEscape (56320 + (c.toNat - 65536) % 1024)
  else [c]

/-- Embedding of `json.dumps` applied to a string value, as used for the
`startkey` and `endkey` parameters of `list_documents`. -/
def json_dumps (s : String) : String :=
  "\"" ++ String.mk (s.toList.flatMap jsonEscapeChar) ++ "\""

/-- The two HTTP verbs reachable from the gateway helpers: `_get` issues
GET, `_post_json` issues POST.  No other verb occurs in the source. -/
inductive Verb where
  | get
  | post
deriving DecidableEq

/-- One outgoing HTTP request: verb, URL path (bytes, appended to the
configured base URL), query parameters in insertion order, and the JSON
body for POST requests. -/
structure Request where
  verb : Verb
  path : List Byte
  params : List (String × String)
  body : Option JValue

/-- An upstream HTTP response: status code, reason phrase, decoded JSON
body. -/
structure HttpResponse where
  status : Nat
  reason : String
  body : JValue

/-- Errors raised by the client helpers: `UpstreamError` corresponds to
`aiohttp.ClientResponseError` from `raise_for_status` (carrying the
response status and reason), `TransportError` to connection-level
failures. -/
inductive ClientError where
  | UpstreamError (status : Nat) (message : String)
  | TransportError (cause : String)

/-- Embedding of `aiohttp`'s `ClientResponse.raise_for_status`: it raises
exactly when the status is at least 400, carrying status and reason. -/
def raise_for_status (r : HttpResponse) : Except ClientError HttpResponse :=
  if 400 ≤ r.status then
    Except.error (ClientError.UpstreamError r.status r.reason)
  else
    Except.ok r

/-- Embedding of the source helper `_get`: issue a GET request for `path`
with query `params` against the server, check the status, return the JSON
body. -/
def _get (server : Request → HttpResponse) (path : List Byte)
    (params : List (String × String)) : Except ClientError JValue :=
  match raise_for_status (server ⟨Verb.get, path, params, none⟩) with
  | Except.ok r => Except.ok r.body
  | Except.error e => Except.error e

/-- Embedding of the source helper `_post_json`: issue a POST request with
a JSON `payload` body, check the status, return the JSON body.  The source
comment notes it is only used for the read-only `_find` endpoint. -/
def _post_json (server : Request → HttpResponse) (path : List Byte)
    (payload : JValue) : Except ClientError JValue :=
  match raise_for_status (server ⟨Verb.post, path, [], some payload⟩) with
  | Except.ok r => Except.ok r.body
  | Except.error e => Except.error e

/-- The single request issued by `list_databases`. -/
def list_databases_request : Request :=
  ⟨Verb.get, lit "/_all_dbs", [], none⟩

/-- The single request issued by `db_info db`. -/
def db_info_request (db : List Byte) : Request :=
  ⟨Verb.get, [SLASH] ++ quote db, [], none⟩

/-- The query parameters built by `get_document`: the dict starts empty,
gains `attachments=true` only when `include_attachments` is true, then
`revs=true` only when `include_revs` is true. -/
def get_document_params (include_attachments include_revs : Bool) :
    List (String × String) :=
  (if include_attachments then [("attachments", "true")] else []) ++
  (if include_revs then [("revs", "true")] else [])

/-- The single request issued by `get_document`. -/
def get_document_request (db doc_id : List Byte)
    (include_attachments include_revs : Bool) : Request :=
  ⟨Verb.get, [SLASH] ++ quote db ++ [SLASH] ++ quote doc_id,
   get_document_params include_attachments include_revs, none⟩

/-- The query parameters built by `list_documents`: `limit`, `skip` and
`include_docs` are always present (`include_docs` explicitly the string
false when the flag is false); `startkey` and `endkey` are added, JSON
serialized, only when provided. -/
def list_documents_params (include_docs : Bool) (limit skip : Int)
    (startkey endkey : Option String) : List (String × String) :=
  [("limit", toString limit), ("skip", toString skip),
   ("include_docs", if include_docs then "true" else "false")] ++
  (match startkey with
   | some s => [("startkey", json_dumps s)]
   | none => []) ++
  (match endkey with
   | some s => [("endkey", json_dumps s)]
   | none => [])

/-- The single request issued by `list_documents`. -/
def list_documents_request (db : List Byte) (include_docs : Bool)
    (limit skip : Int) (startkey endkey : Option String) : Request :=
  ⟨Verb.get, [SLASH] ++ quote db ++ lit "/_all_docs",
   list_documents_params include_docs limit skip startkey endkey, none⟩

/-- The JSON body built by `mango_find`: `selector`, `limit` and `skip`
always present, `fields`, `sort` and `use_index` added only when
provided. -/
def mango_find_body (selector : JValue) (fields : Option (List String))
    (limit : Int) (sort : Option JValue) (skip : Int)
    (use_index : Option JValue) : JValue :=
  JValue.obj
    ([("selector", selector), ("limit", JValue.num limit),
      ("skip", JValue.num skip)] ++
     (match fields with
      | some fs => [("fields", JValue.arr (fs.map JValue.str))]
      | none => []) ++
     (match sort with
      | some s => [("sort", s)]
      | none => []) ++
     (match use_index with
      | some u => [("use_index", u)]
      | none => []))

/-- The single request issued by `mango_find`: the one POST in the
system, against the `_find` endpoint of the escaped database. -/
def mango_find_request (db : List Byte) (selector : JValue)
    (fields : Option (List String)) (limit : Int) (sort : Option JValue)
    (skip : Int) (use_index : Option JValue) : Request :=
  ⟨Verb.post, [SLASH] ++ quote db ++ lit "/_find", [],
   some (mango_find_body selector fields limit sort skip use_index)⟩

/-- Embedding of the tool `list_databases`. -/
def list_databases (server : Request → HttpResponse) :
    Except ClientError JValue :=
  _get server (lit "/_all_dbs") []

/-- Embedding of the tool `db_info`: the database name is escaped and
interpolated directly; the source performs no validation on it. -/
def db_info (server : Request → HttpResponse) (db : List Byte) :
    Except ClientError JValue :=
  _get server ([SLASH] ++ quote db) []

/-- Embedding of the tool `get_document`. -/
def get_document (server : Request → HttpResponse) (db doc_id : List Byte)
    (include_attachments include_revs : Bool) : Except ClientError JValue :=
  _get server ([SLASH] ++ quote db ++ [SLASH] ++ quote doc_id)
    (get_document_params include_attachments include_revs)

/-- Embedding of the tool `list_documents`. -/
def list_documents (server : Request → HttpResponse) (db : List Byte)
    (include_docs : Bool) (limit skip : Int)
    (startkey endkey : Option String) : Except ClientError JValue :=
  _get server ([SLASH] ++ quote db ++ lit "/_all_docs")
    (list_documents_params include_docs limit skip startkey endkey)

/-- Embedding of the tool `mango_find`. -/
def mango_find (server : Request → HttpResponse) (db : List Byte)
    (selector : JValue) (fields : Option (List String)) (limit : Int)
    (sort : Option JValue) (skip : Int) (use_index : Option JValue) :
    Except ClientError JValue :=
  _post_json server ([SLASH] ++ quote db ++ lit "/_find")
    (mango_find_body selector fields limit sort skip use_index)

/-- The stable tool-call result contract exposed to the agent runtime. -/
inductive ToolResult where
  | Ok (payload : JValue)
  | Err (kind : String) (message : String)

/-- Modelled from the spec: the tool-dispatch boundary (the FastMCP
framework, outside this repository) converts a raised client error into a
`ToolResult.Err` of kind `gateway_error` preserving the upstream status
and message, and a normal return into `ToolResult.Ok`. -/
def to_tool_result : Except ClientError JValue → ToolResult
  | Except.ok v => ToolResult.Ok v
  | Except.error (ClientError.UpstreamError status message) =>
      ToolResult.Err "gateway_error" (toString status ++ " " ++ message)
  | Except.error (ClientError.TransportError cause) =>
      ToolResult.Err "gateway_error" cause

/-- The byte of the question-mark character (query-string delimiter). -/
def QMARK : Byte := 63

/-- The byte of the hash character (fragment delimiter). -/
def HASH : Byte := 35

/-- The byte of the space character. -/
def SPACE : Byte := 32

/-- A server that answers every request with 404 Object Not Found, the
CouchDB response for a missing document. -/
def srv404 : Request → HttpResponse :=
  fun _ => ⟨404, "Object Not Found", JValue.null⟩

/-- A server that answers every request with 304 Not Modified: a
non-2xx status below the 400 threshold of `raise_for_status`. -/
def srv304 : Request → HttpResponse :=
  fun _ => ⟨304, "Not Modified", JValue.null⟩

/-- A server that answers every request with 200 and an empty JSON
object. -/
def srv200 : Request → HttpResponse :=
  fun _ => ⟨200, "OK", JValue.obj []⟩

end CouchdbMcpServer

namespace CtxCliAgent

/-- One MCP provider as the orchestrator sees it: its name plus the
outcome of opening (`__aenter__`) and closing (`__aexit__`) its
connection.  `openOk` and `closeOk` abstract the external process:
the orchestrator's own behaviour depends only on whether those calls
raise. -/
structure Server where
  name : String
  openOk : Bool
  closeOk : Bool
deriving DecidableEq

instance : Inhabited Server := ⟨⟨"", true, true⟩⟩

/-- Trace events: a successful open of provider `i` (its position in the
server list), or a close call issued to provider `i`. -/
inductive Event where
  | op (i : Nat)
  | cl (i : Nat)
deriving DecidableEq

/-- Session-level failures surfaced to the caller of `run`:
a configuration error raised while building the server list, the
re-raised open failure of provider `i`, a propagated close failure of
provider `i`, or an error raised inside the agent runtime. -/
inductive SessErr where
  | config (message : String)
  | acquisition (i : Nat)
  | teardown (i : Nat)
  | agent (message : String)
deriving DecidableEq

/-- The server at position `i` of the list (positions out of range are
never consulted by the top-level entry points). -/
def srv (servers : List Server) (i : Nat) : Server :=
  servers.getD i default

/-- Embedding of `AsyncExitStack.aclose` on a stack of entered
providers, most recently entered first: every close is attempted, in
reverse acquisition order; the error that propagates (if any) is the one
raised by the last close processed that fails, matching the nested
context-manager unwind of `contextlib`, where a later `__aexit__` failure
supersedes an earlier one. -/
def aclose (servers : List Server) : List Nat → List Event × Option Nat
  | [] => ([], none)
  | i :: rest =>
    let r := aclose servers rest
    (Event.cl i :: r.1,
      match r.2 with
      | some j => some j
      | none => if (srv servers i).closeOk then none else some i)

/-- The acquisition loop of `_connect_servers`: enter each pending
provider in order, pushing successes onto the exit stack; on the first
open failure, close the stack (reverse order) and surface an error — the
original open failure re-raised as `acquisition`, unless the rollback
close itself raised, in which case that `teardown` failure propagates
instead (Python `except: await stack.aclose(); raise`). -/
def connectGo (servers : List Server) :
    List Nat → List Nat → List Event × Except SessErr (List Nat)
  | [], stack => ([], Except.ok stack.reverse)
  | i :: rest, stack =>
    if (srv servers i).openOk then
      let r := connectGo servers rest (i :: stack)
      (Event.op i :: r.1, r.2)
    else
      let c := aclose servers stack
      (c.1,
        Except.error
          (match c.2 with
           | some j => SessErr.teardown j
           | none => SessErr.acquisition i))

/-- Embedding of `_connect_servers`: acquire every provider of the list,
in order, returning the trace of open/close events and either the list of
connected positions (in acquisition order) or the surfaced failure. -/
def connect_servers (servers : List Server) :
    List Event × Except SessErr (List Nat) :=
  connectGo servers (List.range servers.length) []

/-- Embedding of `run`: connect all servers, run the agent, and close the
stack in a `finally` block.  A connect failure propagates as-is (the
stack was already rolled back inside `_connect_servers`).  Otherwise
every connection is closed in reverse acquisition order; an error raised
by that teardown propagates out of the `finally`, superseding the agent
outcome (successful or not), exactly as in Python. -/
def run (servers : List Server) (agentOutcome : Except String String) :
    List Event × Except SessErr String :=
  match connect_servers servers with
  | (evs, Except.error e) => (evs, Except.error e)
  | (evs, Except.ok conns) =>
    let t := aclose servers conns.reverse
    (evs ++ t.1,
      match t.2 with
      | some j => Except.error (SessErr.teardown j)
      | none =>
        match agentOutcome with
        | Except.ok s => Except.ok s
        | Except.error m => Except.error (SessErr.agent m))

/-- The environment variables consulted by the server builders. -/
structure Env where
  STRIPE_API_KEY : Option String
  ZENDESK_SUBDOMAIN : Option String
  ZENDESK_EMAIL : Option String
  ZENDESK_API_TOKEN : Option String

/-- Embedding of `_require_env`: a missing or empty variable (Python
`if not value`) raises a `RuntimeError` naming the variable and its
purpose. -/
def _require_env (value : Option String) (varName description : String) :
    Except String String :=
  match value with
  | some v =>
    if v = "" then
      Except.error ("Environment variable " ++ varName ++
        " is required for " ++ description ++ ".")
    else
      Except.ok v
  | none =>
    Except.error ("Environment variable " ++ varName ++
      " is required for " ++ description ++ ".")

/-- The runtime open/close behaviour assigned to each provider by name;
abstracts the external processes the built servers talk to. -/
def Behavior := String → Bool × Bool

/-- Embedding of `_build_couchdb_server`: constructing the stdio server
object needs no credentials and cannot fail; nothing is launched yet. -/
def _build_couchdb_server (beh : Behavior) : Server :=
  ⟨"couchdb", (beh "couchdb").1, (beh "couchdb").2⟩

/-- Embedding of `_build_stripe_server`: resolves `STRIPE_API_KEY`
eagerly (raising if absent) before constructing the server object. -/
def _build_stripe_server (env : Env) (beh : Behavior) :
    Except String Server := do
  let _stripe_key ← _require_env env.STRIPE_API_KEY "STRIPE_API_KEY"
    "connecting to the Stripe MCP server"
  Except.ok ⟨"stripe", (beh "stripe").1, (beh "stripe").2⟩

/-- Embedding of `_build_zendesk_server`: resolves the three Zendesk
variables, in declaration order, before constructing the server
object. -/
def _build_zendesk_server (env : Env) (beh : Behavior) :
    Except String Server := do
  let _sub ← _require_env env.ZENDESK_SUBDOMAIN "ZENDESK_SUBDOMAIN"
    "connecting to the Zendesk MCP server"
  let _email ← _require_env env.ZENDESK_EMAIL "ZENDESK_EMAIL"
    "connecting to the Zendesk MCP server"
  let _token ← _require_env env.ZENDESK_API_TOKEN "ZENDESK_API_TOKEN"
    "connecting to the Zendesk MCP server"
  Except.ok ⟨"zendesk", (beh "zendesk").1, (beh "zendesk").2⟩

/-- Embedding of `_build_servers`: the list literal evaluates its
elements left to right, so a failure while building one server prevents
the later builders from running at all. -/
def _build_servers (env : Env) (beh : Behavior) :
    Except String (List Server) := do
  let c := _build_couchdb_server beh
  let s ← _build_stripe_server env beh
  let z ← _build_zendesk_server env beh
  Except.ok [c, s, z]

/-- Embedding of the whole CLI session: `run` first evaluates
`_build_servers()`; if that raises, `_connect_servers` is never invoked,
so no provider is opened and no event occurs. -/
def run_full (env : Env) (beh : Behavior)
    (agentOutcome : Except String String) :
    List Event × Except SessErr String :=
  match _build_servers env beh with
  | Except.error m => ([], Except.error (SessErr.config m))
  | Except.ok servers => run servers agentOutcome

/-- Concrete three-provider list in which the second provider fails to
open and every close succeeds. -/
def servers3 : List Server :=
  [⟨"couchdb", true, true⟩, ⟨"stripe", false, true⟩, ⟨"zendesk", true, true⟩]

/-- Concrete single-provider list whose provider opens but fails to
close. -/
def servers1 : List Server :=
  [⟨"couchdb", true, false⟩]

/-- The environment of the stripe-credential-missing scenario: the
Zendesk variables are set, `STRIPE_API_KEY` is absent. -/
def env0 : Env :=
  ⟨none, some "acme", some "agent@example.com", some "ztoken"⟩

/-- Runtime behaviour in which every provider opens and closes
successfully. -/
def behAll : Behavior := fun _ => (true, true)

end CtxCliAgent

open CouchdbMcpServer CtxCliAgent

lemma hexUpper_not_reserved :
    ∀ n < 16, (hexUpper n).val ≠ 47 ∧ (hexUpper n).val ≠ 63 ∧
      (hexUpper n).val ≠ 35 ∧ (hexUpper n).val ≠ 32 := by decide

lemma alwaysSafe_not_reserved {b : Byte} (h : alwaysSafe b = true) :
    b.val ≠ 47 ∧ b.val ≠ 63 ∧ b.val ≠ 35 ∧ b.val ≠ 32 := by
  simp only [alwaysSafe, Bool.or_eq_true, Bool.and_eq_true,
    decide_eq_true_eq, beq_iff_eq] at h
  omega

lemma quoteByte_not_reserved {b c : Byte} (hc : c ∈ quoteByte b) :
    c.val ≠ 47 ∧ c.val ≠ 63 ∧ c.val ≠ 35 ∧ c.val ≠ 32 := by
  unfold quoteByte at hc
  by_cases h : alwaysSafe b = true
  · rw [if_pos h] at hc
    simp only [List.mem_singleton] at hc
    subst hc
    exact alwaysSafe_not_reserved h
  · rw [if_neg h] at hc
    have h16a : b.val / 16 < 16 := by have := b.isLt; omega
    have h16b : b.val % 16 < 16 := Nat.mod_lt _ (by omega)
    simp only [List.mem_cons, List.mem_singleton, List.not_mem_nil,
      or_false] at hc
    rcases hc with hc | hc | hc
    · subst hc; decide
    · subst hc; exact hexUpper_not_reserved _ h16a
    · subst hc; exact hexUpper_not_reserved _ h16b

lemma quote_not_reserved {s : List Byte} {c : Byte} (hc : c ∈ quote s) :
    c.val ≠ 47 ∧ c.val ≠ 63 ∧ c.val ≠ 35 ∧ c.val ≠ 32 := by
  unfold quote at hc
  rcases List.mem_flatMap.mp hc with ⟨b, _, hcb⟩
  exact quoteByte_not_reserved hcb

lemma byte_ne_of_val_ne {c d : Byte} (h : c.val ≠ d.val) : c ≠ d :=
  fun he => h (congrArg Fin.val he)

lemma slash_not_mem_quote (s : List Byte) : SLASH ∉ quote s :=
  fun h => (quote_not_reserved h).1 rfl

lemma quoteByte_ne_nil (b : Byte) : quoteByte b ≠ [] := by
  unfold quoteByte
  split <;> simp

lemma quote_eq_nil_iff {s : List Byte} : quote s = [] ↔ s = [] := by
  constructor
  · intro h
    cases s with
    | nil => rfl
    | cons b t =>
      exfalso
      unfold quote at h
      rw [List.flatMap_cons] at h
      exact quoteByte_ne_nil b (List.append_eq_nil.mp h).1
  · intro h
    subst h
    rfl

lemma splitOn_slash_single (a : List Byte) (ha : SLASH ∉ a) :
    ([SLASH] ++ a).splitOn SLASH = [[], a] := by
  have hx : ∀ l ∈ [([] : List Byte), a], SLASH ∉ l := by
    intro l hl
    simp only [List.mem_cons, List.mem_singleton, List.not_mem_nil,
      or_false] at hl
    rcases hl with hl | hl
    · subst hl; exact List.not_mem_nil _
    · subst hl; exact ha
  have h := List.splitOn_intercalate [([] : List Byte), a] SLASH hx (by simp)
  have hi : [SLASH].intercalate [([] : List Byte), a] = [SLASH] ++ a := by
    simp [List.intercalate]
  rw [hi] at h
  exact h

lemma splitOn_slash_pair (a b : List Byte) (ha : SLASH ∉ a)
    (hb : SLASH ∉ b) :
    ([SLASH] ++ a ++ [SLASH] ++ b).splitOn SLASH = [[], a, b] := by
  have hx : ∀ l ∈ [([] : List Byte), a, b], SLASH ∉ l := by
    intro l hl
    simp only [List.mem_cons, List.mem_singleton, List.not_mem_nil,
      or_false] at hl
    rcases hl with hl | hl | hl
    · subst hl; exact List.not_mem_nil _
    · subst hl; exact ha
    · subst hl; exact hb
  have h := List.splitOn_intercalate [([] : List Byte), a, b] SLASH hx
    (by simp)
  have hi : [SLASH].intercalate [([] : List Byte), a, b]
      = [SLASH] ++ a ++ [SLASH] ++ b := by
    simp [List.intercalate]
  rw [hi] at h
  exact h

/-- C1: every gateway operation is read-only by construction: the four
listed operations issue a single GET request each, `mango_find` issues a
single POST against the escaped database's `_find` endpoint, and no HTTP
verb other than GET and POST exists in the gateway at all. -/
theorem c1_gateway_read_only (db doc_id : List Byte) (ia ir incl : Bool)
    (lim skp : Int) (sk ek : Option String) (sel : JValue)
    (fields : Option (List String)) (mlim mskp : Int)
    (msort muse : Option JValue) :
    list_databases_request.verb = Verb.get ∧
    (db_info_request db).verb = Verb.get ∧
    (get_document_request db doc_id ia ir).verb = Verb.get ∧
    (list_documents_request db incl lim skp sk ek).verb = Verb.get ∧
    (mango_find_request db sel fields mlim msort mskp muse).verb
      = Verb.post ∧
    (mango_find_request db sel fields mlim msort mskp muse).path
      = [SLASH] ++ quote db ++ lit "/_find" ∧
    (∀ r : Request, r.verb = Verb.get ∨ r.verb = Verb.post) := by
  refine ⟨rfl, rfl, rfl, rfl, rfl, rfl, ?_⟩
  intro r
  cases h : r.verb with
  | get => exact Or.inl rfl
  | post => exact Or.inr rfl

/-- C3: the `db` and `doc_id` path segments are percent-escaped before
interpolation: no byte of an escaped segment is the path separator, the
query delimiter, the fragment delimiter or a space, and each operation's
path splits on the separator into exactly the intended segments. -/
theorem c3_path_segments_escaped (db doc_id : List Byte)
    (ia ir incl : Bool) (lim skp : Int) (sk ek : Option String)
    (sel : JValue) (fields : Option (List String)) (mlim mskp : Int)
    (msort muse : Option JValue) :
    (∀ c ∈ quote db ++ quote doc_id,
       c ≠ SLASH ∧ c ≠ QMARK ∧ c ≠ HASH ∧ c ≠ SPACE) ∧
    (get_document_request db doc_id ia ir).path.splitOn SLASH
      = [[], quote db, quote doc_id] ∧
    (db_info_request db).path.splitOn SLASH = [[], quote db] ∧
    (list_documents_request db incl lim skp sk ek).path.splitOn SLASH
      = [[], quote db, lit "_all_docs"] ∧
    (mango_find_request db sel fields mlim msort mskp muse).path.splitOn
        SLASH
      = [[], quote db, lit "_find"] := by
  refine ⟨?_, ?_, ?_, ?_, ?_⟩
  · intro c hc
    rcases List.mem_append.mp hc with h | h <;>
      rcases quote_not_reserved h with ⟨h1, h2, h3, h4⟩ <;>
      exact ⟨byte_ne_of_val_ne h1, byte_ne_of_val_ne h2,
        byte_ne_of_val_ne h3, byte_ne_of_val_ne h4⟩
  · exact splitOn_slash_pair (quote db) (quote doc_id)
      (slash_not_mem_quote db) (slash_not_mem_quote doc_id)
  · exact splitOn_slash_single (quote db) (slash_not_mem_quote db)
  · have hpath : (list_documents_request db incl lim skp sk ek).path
        = [SLASH] ++ quote db ++ [SLASH] ++ lit "_all_docs" := by
      show [SLASH] ++ quote db ++ lit "/_all_docs"
        = [SLASH] ++ quote db ++ [SLASH] ++ lit "_all_docs"
      rw [show lit "/_all_docs" = [SLASH] ++ lit "_all_docs" from rfl]
      simp [List.append_assoc]
    rw [hpath]
    exact splitOn_slash_pair (quote db) (lit "_all_docs")
      (slash_not_mem_quote db) (by decide)
  · have hpath : (mango_find_request db sel fields mlim msort mskp
        muse).path = [SLASH] ++ quote db ++ [SLASH] ++ lit "_find" := by
      show [SLASH] ++ quote db ++ lit "/_find"
        = [SLASH] ++ quote db ++ [SLASH] ++ lit "_find"
      rw [show lit "/_find" = [SLASH] ++ lit "_find" from rfl]
      simp [List.append_assoc]
    rw [hpath]
    exact splitOn_slash_pair (quote db) (lit "_find")
      (slash_not_mem_quote db) (by decide)

/-- C8: the query string of `get_document` contains `attachments` exactly
when `include_attachments` is true and `revs` exactly when `include_revs`
is true; with both flags false the query is empty — the parameters are
omitted, never sent as false. -/
theorem c8_get_document_flag_params (db doc_id : List Byte)
    (ia ir : Bool) :
    ((get_document_request db doc_id ia ir).params.lookup "attachments"
      = if ia then some "true" else none) ∧
    ((get_document_request db doc_id ia ir).params.lookup "revs"
      = if ir then some "true" else none) ∧
    ((get_document_request db doc_id ia ir).params = []
      ↔ ia = false ∧ ir = false) := by
  cases ia <;> cases ir <;> refine ⟨rfl, rfl, ?_⟩ <;>
    simp [get_document_request, get_document_params]

/-- C10: the query string of `list_documents` always carries `limit`,
`skip` and `include_docs` (the latter explicitly the string false when
the flag is false, unlike `get_document`), while `startkey` and `endkey`
appear exactly when provided, JSON-serialized. -/
theorem c10_list_documents_params (db : List Byte) (incl : Bool)
    (lim skp : Int) (sk ek : Option String) :
    ((list_documents_request db incl lim skp sk ek).params.lookup "limit"
      = some (toString lim)) ∧
    ((list_documents_request db incl lim skp sk ek).params.lookup "skip"
      = some (toString skp)) ∧
    ((list_documents_request db incl lim skp sk ek).params.lookup
        "include_docs"
      = some (if incl then "true" else "false")) ∧
    ((list_documents_request db incl lim skp sk ek).params.lookup
        "startkey"
      = Option.map json_dumps sk) ∧
    ((list_documents_request db incl lim skp sk ek).params.lookup
        "endkey"
      = Option.map json_dumps ek) := by
  cases sk <;> cases ek <;> exact ⟨rfl, rfl, rfl, rfl, rfl⟩

/-- C9 counterexample: `db_info` performs no non-empty validation — called
with the empty database name it issues the GET request (path `/`, the
server root) and returns the server's response instead of rejecting the
argument. -/
theorem c9_empty_db_counterexample :
    db_info srv200 [] = Except.ok (JValue.obj []) := rfl

/-- C9 (amended): `db_info` escapes `db` and interpolates it into the
path without any validation; the path degenerates to the bare root path
exactly when `db` is empty, and the request is issued regardless. -/
theorem c9_db_info_no_validation (db : List Byte) :
    (db_info_request db).path = [SLASH] ++ quote db ∧
    ((db_info_request db).path = [SLASH] ↔ db = []) := by
  refine ⟨rfl, ?_⟩
  constructor
  · intro h
    have h2 : SLASH :: quote db = SLASH :: ([] : List Byte) := h
    exact quote_eq_nil_iff.mp (List.cons.injEq _ _ _ _ ▸ h2).2
  · intro h
    subst h
    rfl

/-- C6 counterexample: a non-2xx status below 400 (here 304 Not
Modified) is not turned into an error at all — `raise_for_status` only
fires at 400 and above, so the call returns `Ok`, refuting the claim for
every non-2xx status. -/
theorem c6_non2xx_counterexample :
    to_tool_result
        (get_document srv304 (lit "users") (lit "user:alice") false false)
      = ToolResult.Ok JValue.null := rfl

lemma _get_error (server : Request → HttpResponse) (path : List Byte)
    (params : List (String × String))
    (h : 400 ≤ (server ⟨Verb.get, path, params, none⟩).status) :
    to_tool_result (_get server path params) =
      ToolResult.Err "gateway_error"
        (toString (server ⟨Verb.get, path, params, none⟩).status ++ " "
          ++ (server ⟨Verb.get, path, params, none⟩).reason) := by
  unfold _get raise_for_status
  rw [if_pos h]
  rfl

lemma _post_json_error (server : Request → HttpResponse)
    (path : List Byte) (payload : JValue)
    (h : 400 ≤ (server ⟨Verb.post, path, [], some payload⟩).status) :
    to_tool_result (_post_json server path payload) =
      ToolResult.Err "gateway_error"
        (toString (server ⟨Verb.post, path, [], some payload⟩).status ++ " "
          ++ (server ⟨Verb.post, path, [], some payload⟩).reason) := by
  unfold _post_json raise_for_status
  rw [if_pos h]
  rfl

/-- C6 (amended): for every one of the five tool operations, whenever the
upstream response to that call's request has status at least 400, the
call surfaces `ToolResult.Err` of kind `gateway_error` preserving the
upstream status and message rather than an unhandled fault; statuses in
300–399 are not treated as errors by this layer. -/
theorem c6_upstream_error_to_err (server : Request → HttpResponse)
    (db doc_id : List Byte) (ia ir incl : Bool) (lim skp : Int)
    (sk ek : Option String) (sel : JValue) (fields : Option (List String))
    (mlim mskp : Int) (msort muse : Option JValue) :
    (400 ≤ (server list_databases_request).status →
      to_tool_result (list_databases server) =
        ToolResult.Err "gateway_error"
          (toString (server list_databases_request).status ++ " "
            ++ (server list_databases_request).reason)) ∧
    (400 ≤ (server (db_info_request db)).status →
      to_tool_result (db_info server db) =
        ToolResult.Err "gateway_error"
          (toString (server (db_info_request db)).status ++ " "
            ++ (server (db_info_request db)).reason)) ∧
    (400 ≤ (server (get_document_request db doc_id ia ir)).status →
      to_tool_result (get_document server db doc_id ia ir) =
        ToolResult.Err "gateway_error"
          (toString (server (get_document_request db doc_id ia ir)).status
            ++ " "
            ++ (server (get_document_request db doc_id ia ir)).reason)) ∧
    (400 ≤ (server (list_documents_request db incl lim skp sk ek)).status →
      to_tool_result (list_documents server db incl lim skp sk ek) =
        ToolResult.Err "gateway_error"
          (toString
              (server (list_documents_request db incl lim skp sk ek)).status
            ++ " "
            ++ (server (list_documents_request db incl lim skp sk
                  ek)).reason)) ∧
    (400 ≤ (server (mango_find_request db sel fields mlim msort mskp
        muse)).status →
      to_tool_result (mango_find server db sel fields mlim msort mskp
          muse) =
        ToolResult.Err "gateway_error"
          (toString (server (mango_find_request db sel fields mlim msort
              mskp muse)).status
            ++ " "
            ++ (server (mango_find_request db sel fields mlim msort mskp
              muse)).reason)) :=
  ⟨fun h => _get_error server (lit "/_all_dbs") [] h,
   fun h => _get_error server ([SLASH] ++ quote db) [] h,
   fun h => _get_error server
     ([SLASH] ++ quote db ++ [SLASH] ++ quote doc_id)
     (get_document_params ia ir) h,
   fun h => _get_error server ([SLASH] ++ quote db ++ lit "/_all_docs")
     (list_documents_params incl lim skp sk ek) h,
   fun h => _post_json_error server ([SLASH] ++ quote db ++ lit "/_find")
     (mango_find_body sel fields mlim msort mskp muse) h⟩

lemma aclose_trace (servers : List Server) (st : List Nat) :
    (aclose servers st).1 = st.map Event.cl := by
  induction st with
  | nil => rfl
  | cons i rest ih => simp [aclose, ih]

lemma aclose_ok (servers : List Server) (st : List Nat)
    (h : ∀ i ∈ st, (srv servers i).closeOk = true) :
    (aclose servers st).2 = none := by
  induction st with
  | nil => rfl
  | cons i rest ih =>
    have hr := ih fun j hj => h j (List.mem_cons_of_mem _ hj)
    have hi := h i (List.mem_cons_self i rest)
    simp [aclose, hr, hi]

lemma connectGo_fail (servers : List Server) (A : List Nat) :
    ∀ (B : List Nat) (k : Nat) (stack : List Nat),
      (∀ j ∈ A, (srv servers j).openOk = true) →
      (srv servers k).openOk = false →
      connectGo servers (A ++ k :: B) stack =
        (A.map Event.op ++ (A.reverse ++ stack).map Event.cl,
          Except.error
            (match (aclose servers (A.reverse ++ stack)).2 with
             | some j => SessErr.teardown j
             | none => SessErr.acquisition k)) := by
  induction A with
  | nil =>
    intro B k stack _ hk
    simp [connectGo, hk, aclose_trace]
  | cons a A' ih =>
    intro B k stack hA hk
    have ha : (srv servers a).openOk = true := hA a (List.mem_cons_self _ _)
    have hrec := ih B k (a :: stack)
      (fun j hj => hA j (List.mem_cons_of_mem _ hj)) hk
    simp only [List.cons_append, connectGo, ha, if_true, List.append_eq]
    rw [hrec]
    simp [List.append_assoc]

lemma connectGo_ok_char (servers : List Server) :
    ∀ (pending stack : List Nat) (evs : List Event) (conns : List Nat),
      connectGo servers pending stack = (evs, Except.ok conns) →
      ∃ L : List Nat, evs = L.map Event.op ∧ conns = stack.reverse ++ L ∧
        L.Sublist pending := by
  intro pending
  induction pending with
  | nil =>
    intro stack evs conns h
    simp only [connectGo] at h
    injection h with h1 h2
    injection h2 with h3
    exact ⟨[], h1.symm, by simp [h3], List.nil_sublist _⟩
  | cons i rest ih =>
    intro stack evs conns h
    simp only [connectGo] at h
    by_cases hi : (srv servers i).openOk
    · rw [if_pos hi] at h
      rcases hr : connectGo servers rest (i :: stack) with ⟨evs', res'⟩
      rw [hr] at h
      injection h with h1 h2
      dsimp only at h1 h2
      subst h2
      obtain ⟨L', hL1, hL2, hL3⟩ := ih (i :: stack) evs' conns hr
      refine ⟨i :: L', ?_, ?_, List.Sublist.cons₂ i hL3⟩
      · rw [← h1, hL1]
        rfl
      · rw [hL2]
        simp [List.reverse_cons, List.append_assoc]
    · rw [if_neg hi] at h
      injection h with h1 h2
      exact absurd h2 (by simp)

lemma connectGo_err_char (servers : List Server) :
    ∀ (pending stack : List Nat) (evs : List Event) (e : SessErr),
      connectGo servers pending stack = (evs, Except.error e) →
      ∃ L : List Nat,
        evs = L.map Event.op ++ (L.reverse ++ stack).map Event.cl ∧
        L.Sublist pending := by
  intro pending
  induction pending with
  | nil =>
    intro stack evs e h
    simp only [connectGo] at h
    injection h with h1 h2
    exact absurd h2 (by simp)
  | cons i rest ih =>
    intro stack evs e h
    simp only [connectGo] at h
    by_cases hi : (srv servers i).openOk
    · rw [if_pos hi] at h
      rcases hr : connectGo servers rest (i :: stack) with ⟨evs', res'⟩
      rw [hr] at h
      injection h with h1 h2
      dsimp only at h1 h2
      subst h2
      obtain ⟨L', hL1, hL3⟩ := ih (i :: stack) evs' e hr
      refine ⟨i :: L', ?_, List.Sublist.cons₂ i hL3⟩
      rw [← h1, hL1]
      simp [List.reverse_cons, List.append_assoc]
    · rw [if_neg hi] at h
      injection h with h1 h2
      exact ⟨[], by rw [← h1, aclose_trace]; simp, List.nil_sublist _⟩

lemma count_cl_map_op (L : List Nat) (i : Nat) :
    (L.map Event.op).count (Event.cl i) = 0 :=
  List.count_eq_zero.mpr (by simp)

lemma count_op_map_cl (L : List Nat) (i : Nat) :
    (L.map Event.cl).count (Event.op i) = 0 :=
  List.count_eq_zero.mpr (by simp)

lemma event_op_injective : Function.Injective Event.op :=
  fun a b h => by injection h

lemma event_cl_injective : Function.Injective Event.cl :=
  fun a b h => by injection h

lemma range_split (n k : Nat) (h : k < n) :
    List.range n = List.range k ++ k :: List.range' (k + 1) (n - k - 1) := by
  obtain ⟨m, hm⟩ : ∃ m, n - k - 1 = m := ⟨n - k - 1, rfl⟩
  have h2 : (k : Nat) :: List.range' (k + 1) m = List.range' k (m + 1) := rfl
  have h3 := List.range'_append 0 k (m + 1) 1
  rw [show 0 + 1 * k = k from by omega,
    show (m + 1) + k = n from by omega] at h3
  rw [hm, List.range_eq_range', ← h3, ← h2, List.range_eq_range']

/-- C2: acquisition is transactional — when the first `k` providers open
successfully, provider `k` fails to open, and the rollback closes
succeed, the trace is exactly the `k` opens followed by closes of those
same `k` providers in reverse acquisition order, the surfaced result is
the provider-`k` acquisition failure, no later provider is ever opened,
and each opened provider is closed exactly once. -/
theorem c2_transactional_acquisition (servers : List Server) (k : Nat)
    (hk : k < servers.length)
    (hopen : ∀ j, j < k → (srv servers j).openOk = true)
    (hfail : (srv servers k).openOk = false)
    (hclose : ∀ j, j < k → (srv servers j).closeOk = true) :
    connect_servers servers =
      ((List.range k).map Event.op
         ++ ((List.range k).reverse).map Event.cl,
       Except.error (SessErr.acquisition k)) ∧
    (∀ j, k ≤ j → Event.op j ∉ (connect_servers servers).1) ∧
    (∀ j, j < k →
      (connect_servers servers).1.count (Event.cl j) = 1) := by
  have hsplit : List.range servers.length
      = List.range k ++ k :: List.range' (k + 1) (servers.length - k - 1) :=
    range_split servers.length k hk
  have hAopen : ∀ j ∈ List.range k, (srv servers j).openOk = true :=
    fun j hj => hopen j (List.mem_range.mp hj)
  have hAclose : ∀ j ∈ (List.range k).reverse ++ ([] : List Nat),
      (srv servers j).closeOk = true := by
    intro j hj
    rw [List.append_nil, List.mem_reverse] at hj
    exact hclose j (List.mem_range.mp hj)
  have heq : connect_servers servers =
      ((List.range k).map Event.op
         ++ ((List.range k).reverse).map Event.cl,
       Except.error (SessErr.acquisition k)) := by
    unfold connect_servers
    rw [hsplit, connectGo_fail servers (List.range k) _ k []
      hAopen hfail, aclose_ok servers _ hAclose]
    simp
  refine ⟨heq, ?_, ?_⟩
  · intro j hj hmem
    rw [heq] at hmem
    simp only [List.mem_append, List.mem_map, List.mem_reverse,
      List.mem_range] at hmem
    rcases hmem with ⟨a, ha, hae⟩ | ⟨a, ha, hae⟩
    · have : a = j := event_op_injective hae
      omega
    · exact Event.noConfusion hae
  · intro j hj
    rw [heq]
    show ((List.range k).map Event.op
      ++ ((List.range k).reverse).map Event.cl).count (Event.cl j) = 1
    rw [List.count_append, count_cl_map_op,
      List.count_map_of_injective _ _ event_cl_injective,
      List.count_reverse]
    rw [List.count_eq_one_of_mem (List.nodup_range k)
      (List.mem_range.mpr hj)]

/-- C2 witness: three concrete providers of which the second fails to
open — the hypotheses hold and the trace opens provider 0 then closes it
before surfacing the acquisition failure of provider 1. -/
theorem c2_transactional_acquisition_witness :
    (1 < servers3.length ∧
      (∀ j, j < 1 → (srv servers3 j).openOk = true) ∧
      (srv servers3 1).openOk = false ∧
      (∀ j, j < 1 → (srv servers3 j).closeOk = true)) ∧
    connect_servers servers3 =
      ([Event.op 0, Event.cl 0], Except.error (SessErr.acquisition 1)) := by
  refine ⟨⟨by decide, by decide, by decide, by decide⟩, ?_⟩
  have h := (c2_transactional_acquisition servers3 1 (by decide)
    (by decide) (by decide) (by decide)).1
  simpa using h

/-- C5: for every session — whatever the providers' open and close
behaviour and the agent outcome — each provider position is closed during
teardown exactly as often as it was successfully opened, and it is opened
at most once: no leak, no double close. -/
theorem c5_open_close_balance (servers : List Server)
    (agentOutcome : Except String String) (i : Nat) :
    (run servers agentOutcome).1.count (Event.cl i)
      = (run servers agentOutcome).1.count (Event.op i) ∧
    (run servers agentOutcome).1.count (Event.op i) ≤ 1 := by
  rcases hc : connect_servers servers with ⟨evs, res⟩
  cases res with
  | error e =>
    obtain ⟨L, hL, hsub⟩ := connectGo_err_char servers
      (List.range servers.length) [] evs e hc
    have hnodup : L.Nodup :=
      List.Nodup.sublist hsub (List.nodup_range _)
    have hrun : (run servers agentOutcome).1 = evs := by
      unfold run
      rw [hc]
    rw [hrun, hL, List.append_nil]
    constructor
    · simp [List.count_append, count_cl_map_op, count_op_map_cl,
        List.count_map_of_injective _ _ event_cl_injective,
        List.count_map_of_injective _ _ event_op_injective,
        List.count_reverse]
    · simp only [List.count_append, count_op_map_cl,
        List.count_map_of_injective _ _ event_op_injective]
      have := List.nodup_iff_count_le_one.mp hnodup i
      omega
  | ok conns =>
    obtain ⟨L, hL1, hL2, hsub⟩ := connectGo_ok_char servers
      (List.range servers.length) [] evs conns hc
    have hnodup : L.Nodup :=
      List.Nodup.sublist hsub (List.nodup_range _)
    have hconns : conns = L := by simpa using hL2
    have hrun : (run servers agentOutcome).1
        = evs ++ conns.reverse.map Event.cl := by
      unfold run
      rw [hc]
      simp [aclose_trace]
    rw [hrun, hL1, hconns]
    constructor
    · simp [List.count_append, count_cl_map_op, count_op_map_cl,
        List.count_map_of_injective _ _ event_cl_injective,
        List.count_map_of_injective _ _ event_op_injective,
        List.count_reverse]
    · simp only [List.count_append, count_op_map_cl,
        List.count_map_of_injective _ _ event_op_injective]
      have := List.nodup_iff_count_le_one.mp hnodup i
      omega

/-- C4 counterexample: a provider whose close raises makes the teardown
error replace the session's successful result — the caller sees the
teardown failure, not the agent's answer, refuting "never re-raised over
the session's result". -/
theorem c4_teardown_masks_result_counterexample :
    (run servers1 (Except.ok "done")).2
      = Except.error (SessErr.teardown 0) ∧
    (run servers1 (Except.ok "done")).2 ≠ Except.ok "done" := by
  refine ⟨rfl, fun h => ?_⟩
  have h2 : (Except.error (SessErr.teardown 0) : Except SessErr String)
      = Except.ok "done" := h
  exact Except.noConfusion h2

/-- C4 (amended): every close is still attempted during teardown, but a
close failure propagates out of the `finally` block: the session result
surfaced to the caller is the teardown error, superseding the agent
outcome — successful or not — rather than being collected and
suppressed. -/
theorem c4_teardown_error_replaces_result (servers : List Server)
    (agentOutcome : Except String String) (evs : List Event)
    (conns : List Nat) (j : Nat)
    (hconn : connect_servers servers = (evs, Except.ok conns))
    (hfail : (aclose servers conns.reverse).2 = some j) :
    (run servers agentOutcome).2 = Except.error (SessErr.teardown j) ∧
    (run servers agentOutcome).1 = evs ++ conns.reverse.map Event.cl := by
  unfold run
  rw [hconn]
  constructor
  · simp [hfail]
  · simp [aclose_trace]

/-- C4 witness: one provider that opens and fails to close — the
hypotheses hold concretely and the session ends in the teardown error
with the close still attempted. -/
theorem c4_teardown_error_witness :
    (connect_servers servers1 = ([Event.op 0], Except.ok [0]) ∧
      (aclose servers1 ([0] : List Nat).reverse).2 = some 0) ∧
    ((run servers1 (Except.ok "done")).2
        = Except.error (SessErr.teardown 0) ∧
      (run servers1 (Except.ok "done")).1
        = [Event.op 0] ++ ([0] : List Nat).reverse.map Event.cl) :=
  ⟨⟨rfl, rfl⟩, c4_teardown_error_replaces_result servers1
    (Except.ok "done") [Event.op 0] [0] 0 rfl rfl⟩

/-- C7 counterexample: with `STRIPE_API_KEY` missing, the failure is
raised while `_build_servers` constructs the server list — before
`_connect_servers` runs — so the trace is empty: couchdb is never opened
and in particular never closed, refuting "couchdb's already-opened handle
is closed"; the surfaced error is the configuration failure naming
`STRIPE_API_KEY`, not an acquisition-phase error. -/
theorem c7_config_counterexample :
    (run_full env0 behAll (Except.ok "done")).1 = [] ∧
    Event.cl 0 ∉ (run_full env0 behAll (Except.ok "done")).1 ∧
    (run_full env0 behAll (Except.ok "done")).2 =
      Except.error (SessErr.config
        "Environment variable STRIPE_API_KEY is required for connecting to the Stripe MCP server.") := by
  refine ⟨rfl, ?_, rfl⟩
  intro h
  exact List.not_mem_nil _ h

/-- C7 (amended): acquiring `[couchdb, stripe, zendesk]` with the stripe
credential missing fails while building the server list, before any
provider is opened: no open or close event occurs (couchdb is never
opened, zendesk never built) and the session surfaces the configuration
error naming `STRIPE_API_KEY` — regardless of provider runtime behaviour
and agent outcome. -/
theorem c7_config_failure_before_acquisition (beh : Behavior)
    (agentOutcome : Except String String) :
    run_full env0 beh agentOutcome =
      ([], Except.error (SessErr.config
        "Environment variable STRIPE_API_KEY is required for connecting to the Stripe MCP server.")) := rfl

/-- C6 witness: a server answering 404 Object Not Found to everything,
with each of the five operations called concretely (the claim's
`get_document users user:alice` scenario among them): every hypothesis
holds at 404 and every call yields the gateway error with the status and
message preserved. -/
theorem c6_upstream_error_witness :
    (400 ≤ (srv404 list_databases_request).status ∧
      400 ≤ (srv404 (db_info_request (lit "users"))).status ∧
      400 ≤ (srv404 (get_document_request (lit "users")
        (lit "user:alice") false false)).status ∧
      400 ≤ (srv404 (list_documents_request (lit "users") true 100 0
        none none)).status ∧
      400 ≤ (srv404 (mango_find_request (lit "users") (JValue.obj [])
        none 100 none 0 none)).status) ∧
    to_tool_result (list_databases srv404)
      = ToolResult.Err "gateway_error"
          (toString (srv404 list_databases_request).status ++ " "
            ++ (srv404 list_databases_request).reason) ∧
    to_tool_result (db_info srv404 (lit "users"))
      = ToolResult.Err "gateway_error"
          (toString (srv404 (db_info_request (lit "users"))).status ++ " "
            ++ (srv404 (db_info_request (lit "users"))).reason) ∧
    to_tool_result
        (get_document srv404 (lit "users") (lit "user:alice") false false)
      = ToolResult.Err "gateway_error"
          (toString (srv404 (get_document_request (lit "users")
              (lit "user:alice") false false)).status
            ++ " "
            ++ (srv404 (get_document_request (lit "users")
              (lit "user:alice") false false)).reason) ∧
    to_tool_result (list_documents srv404 (lit "users") true 100 0
        none none)
      = ToolResult.Err "gateway_error"
          (toString (srv404 (list_documents_request (lit "users") true
              100 0 none none)).status
            ++ " "
            ++ (srv404 (list_documents_request (lit "users") true 100 0
              none none)).reason) ∧
    to_tool_result (mango_find srv404 (lit "users") (JValue.obj [])
        none 100 none 0 none)
      = ToolResult.Err "gateway_error"
          (toString (srv404 (mango_find_request (lit "users")
              (JValue.obj []) none 100 none 0 none)).status
            ++ " "
            ++ (srv404 (mango_find_request (lit "users") (JValue.obj [])
              none 100 none 0 none)).reason) := by
  have h := c6_upstream_error_to_err srv404 (lit "users")
    (lit "user:alice") false false true 100 0 none none (JValue.obj [])
    none 100 0 none none
  exact ⟨⟨by decide, by decide, by decide, by decide, by decide⟩,
    h.1 (by decide), h.2.1 (by decide), h.2.2.1 (by decide),
    h.2.2.2.1 (by decide), h.2.2.2.2 (by decide)⟩
